import Mathlib

/-!
Shallow embedding of the Draw-and-Tell kid-app session flow
(frontend/kid_app/src/screens/TalkScreen.jsx, DrawScreen.jsx, the
consent-gated App component, and components/ParentalConsent.jsx).

React component state is modelled as explicit records; each event
handler or effect becomes a pure function from the pre-state (plus the
outcome of any awaited browser/network operation, passed as an explicit
argument) to the post-state.  `navigate(route)` is modelled by a
`navigatedTo` field; the body of an HTTP fetch is modelled by an
explicit outcome argument.  Base64 decoding plus `URL.createObjectURL`
is modelled as the identity on the payload string: the resulting state
field carries the payload identity, which is all the flow logic
inspects.
-/

/-- Truthiness of a nullable JS string (`undefined`/`null`/`""` are falsy). -/
def jsTruthyStr : Option String → Bool
  | none => false
  | some s => !(s == "")

/-- Truthiness of a nullable JS numeric id (`undefined`/`null`/`0` are falsy);
used for the `!drawingId || drawingId === 0` style checks in TalkScreen. -/
def jsTruthyId : Option Int → Bool
  | none => false
  | some n => !(n == 0)

/-- MediaRecorder lifecycle state (`MediaRecorder.state` in the browser). -/
inductive RecState where
  | inactive
  | recording
  | stopped
  deriving DecidableEq, Repr

/-- A MediaRecorder together with the media stream it records; `tracksStopped`
records whether `stream.getTracks().forEach(track => track.stop())` has run. -/
structure Recorder where
  streamId : Nat
  state : RecState
  tracksStopped : Bool
  deriving DecidableEq, Repr

/-- The navigation state handed to TalkScreen (`location.state`), as populated
by DrawScreen.handleNext. -/
structure LocationState where
  question : Option String
  questionAudio : Option String
  drawingId : Option Int
  questionId : Option Int
  capturedImage : Option String
  deriving DecidableEq, Repr

/-- The React state of the TalkScreen component, one field per useState hook,
plus `audioPlaying` for the hidden question-audio element's playing status and
`navigatedTo` for the route passed to `navigate`. -/
structure TalkState where
  isRecording : Bool
  recordedChunks : List (List Nat)
  mediaRecorder : Option Recorder
  isLoading : Bool
  error : Option String
  question : Option String
  questionAudio : Option String
  hasRecording : Bool
  response : Option String
  responseAudio : Option String
  showResponse : Bool
  questionAudioPlayed : Bool
  audioPlaying : Bool
  navigatedTo : Option String
  deriving DecidableEq, Repr

/-- TalkScreen state on mount (the useState initial values; `isLoading` starts
true). -/
def initialTalkState : TalkState :=
  { isRecording := false
    recordedChunks := []
    mediaRecorder := none
    isLoading := true
    error := none
    question := none
    questionAudio := none
    hasRecording := false
    response := none
    responseAudio := none
    showResponse := false
    questionAudioPlayed := false
    audioPlaying := false
    navigatedTo := none }

/-- The `question` field of `location.state || {}`. -/
def locQuestion : Option LocationState → Option String
  | none => none
  | some l => l.question

/-- The `questionAudio` field of `location.state || {}`. -/
def locQuestionAudio : Option LocationState → Option String
  | none => none
  | some l => l.questionAudio

/-- The `drawingId` field of `location.state || {}`. -/
def locDrawingId : Option LocationState → Option Int
  | none => none
  | some l => l.drawingId

/-- The `questionId` field of `location.state || {}`. -/
def locQuestionId : Option LocationState → Option Int
  | none => none
  | some l => l.questionId

/-- Parsed JSON body of a `/transcribe-answer` response. -/
structure TranscribeResult where
  response : Option String
  responseAudio : Option String
  deriving DecidableEq, Repr

/-- Outcome of a fetch: the promise rejects (network error), or a response
arrives with an HTTP status and a parsed body. -/
inductive FetchOutcome where
  | networkError
  | response (status : Nat) (body : TranscribeResult)
  deriving DecidableEq, Repr

/-- The `Response.ok` flag: status in the 200-299 range. -/
def responseOk (status : Nat) : Bool :=
  200 ≤ status && status < 300

/-- The multipart request handleFinish posts to `/transcribe-answer`: the blob
built from the recorded chunks plus the two ids. -/
structure FetchCall where
  audio : List (List Nat)
  drawing_id : Int
  question_id : Int
  deriving DecidableEq, Repr

/-- TalkScreen.handleFinish.  Mirrors the JS control flow: set loading, clear
error; without a recording navigate straight to `/end`; with missing or zero
ids set the missing-id error and return before any fetch; otherwise post the
blob and either show the response (truthy `result.response`), or navigate to
`/end`; a rejected fetch or a non-ok status lands in the catch block, which
sets the save error; the finally block clears loading on every path.  Returns
the post-state and the fetch call made, if any. -/
def handleFinish (s : TalkState) (loc : Option LocationState)
    (outcome : FetchOutcome) : TalkState × Option FetchCall :=
  let s := { s with isLoading := true, error := none }
  if !s.hasRecording then
    ({ s with navigatedTo := some "/end", isLoading := false }, none)
  else
    let audioBlob := s.recordedChunks
    let drawingId := locDrawingId loc
    let questionId := locQuestionId loc
    if !(jsTruthyId drawingId) || !(jsTruthyId questionId) then
      ({ s with error := some "Missing drawing or question ID.",
                isLoading := false }, none)
    else
      let call := some (FetchCall.mk audioBlob (drawingId.getD 0) (questionId.getD 0))
      match outcome with
      | FetchOutcome.networkError =>
          ({ s with error := some "Could not save your recording. Try again!",
                    isLoading := false }, call)
      | FetchOutcome.response status body =>
          if !(responseOk status) then
            ({ s with error := some "Could not save your recording. Try again!",
                      isLoading := false }, call)
          else if jsTruthyStr body.response then
            let s := { s with response := body.response, showResponse := true }
            let s :=
              if jsTruthyStr body.responseAudio then
                { s with responseAudio := body.responseAudio }
              else s
            ({ s with isLoading := false }, call)
          else
            ({ s with navigatedTo := some "/end", isLoading := false }, call)

/-- The synchronous prefix of handleFinish up to its first await point: the
state render seen while the transcribe request is in flight. -/
def handleFinishPending (s : TalkState) : TalkState :=
  { s with isLoading := true, error := none }

/-- Outcome of `navigator.mediaDevices.getUserMedia({audio: true})`. -/
inductive MicOutcome where
  | denied
  | granted (streamId : Nat)
  deriving DecidableEq, Repr

/-- TalkScreen.startRecording.  Clears the error, awaits microphone access;
on denial the catch block sets the permission error and nothing else changes;
on grant a fresh MediaRecorder on the granted stream is stored and started,
`isRecording` is set and `hasRecording` cleared.  The recorded chunk list is
not touched on either path. -/
def startRecording (s : TalkState) (mic : MicOutcome) : TalkState :=
  let s := { s with error := none }
  match mic with
  | MicOutcome.denied =>
      { s with error := some "Could not access microphone. Please check permissions." }
  | MicOutcome.granted sid =>
      let recorder : Recorder := { streamId := sid, state := RecState.recording,
                                   tracksStopped := false }
      { s with mediaRecorder := some recorder, isRecording := true,
               hasRecording := false }

/-- The recorder's ondataavailable handler: a chunk is appended only when its
size is positive. -/
def onDataAvailable (s : TalkState) (data : List Nat) : TalkState :=
  if data.length > 0 then
    { s with recordedChunks := s.recordedChunks ++ [data] }
  else s

/-- Effect of `MediaRecorder.stop()` on the recorder: the recorder leaves the
recording state and its onstop handler stops every track of the stream. -/
def stopRecorder (r : Recorder) : Recorder :=
  { r with state := RecState.stopped, tracksStopped := true }

/-- TalkScreen.stopRecording: when a recorder exists and is recording, stop it
(onstop releases the stream tracks and sets `hasRecording`) and clear
`isRecording`; otherwise nothing happens. -/
def stopRecording (s : TalkState) : TalkState :=
  match s.mediaRecorder with
  | some r =>
      if r.state = RecState.recording then
        { s with mediaRecorder := some (stopRecorder r),
                 isRecording := false, hasRecording := true }
      else s
  | none => s

/-- The cleanup function returned by TalkScreen's mount effect (runs on
unmount/navigation away): stop the recorder if it is still recording (its
onstop releases the stream tracks and sets `hasRecording`), then pause the
question-audio element and reset its position. -/
def cleanup (s : TalkState) : TalkState :=
  let s :=
    match s.mediaRecorder with
    | some r =>
        if r.state = RecState.recording then
          { s with mediaRecorder := some (stopRecorder r), hasRecording := true }
        else s
    | none => s
  { s with audioPlaying := false }

/-- Guard of the question-audio playback effect: it runs its body only when a
question-audio payload is present, the audio element ref is attached, and the
payload has not already been played. -/
def questionAudioEffectFires (s : TalkState) (audioRefAttached : Bool) : Bool :=
  jsTruthyStr s.questionAudio && audioRefAttached && !s.questionAudioPlayed

/-- The audio element's onplay handler installed by the playback effect: marks
the question audio as played the moment playback starts. -/
def onQuestionAudioPlayStarted (s : TalkState) : TalkState :=
  { s with questionAudioPlayed := true, audioPlaying := true }

/-- TalkScreen.getQuestion: set loading, clear error; a missing/empty question
in the navigation state throws, caught as the generic error; otherwise store
the question text, and when audio data is present store its blob URL (the
payload identity in this model); loading is cleared on every path. -/
def getQuestion (s : TalkState) (loc : Option LocationState) : TalkState :=
  let s := { s with isLoading := true, error := none }
  let generatedQuestion := locQuestion loc
  if !(jsTruthyStr generatedQuestion) then
    { s with error := some "Oops! Something went wrong. Please try again.",
             isLoading := false }
  else
    let s := { s with question := generatedQuestion }
    let s :=
      if jsTruthyStr (locQuestionAudio loc) then
        { s with questionAudio := locQuestionAudio loc }
      else s
    { s with isLoading := false }

/-- The React state of the DrawScreen component. -/
structure DrawState where
  capturedImage : Option String
  isLoading : Bool
  error : Option String
  showCamera : Bool
  deriving DecidableEq, Repr

/-- The disabled attribute of DrawScreen's next button:
`!capturedImage || isLoading`. -/
def nextButtonDisabled (d : DrawState) : Bool :=
  d.capturedImage.isNone || d.isLoading

/-- The synchronous prefix of DrawScreen.handleNext up to its first await
point: with no captured image it returns at once, otherwise the loading flag
is set (and the error cleared) before the analyze request is issued. -/
def handleNextPending (d : DrawState) : DrawState :=
  if d.capturedImage.isNone then d
  else { d with isLoading := true, error := none }

/-- The disabled attribute of TalkScreen's talk button: `isLoading`. -/
def talkButtonDisabled (s : TalkState) : Bool :=
  s.isLoading

/-- The disabled attribute of TalkScreen's finish button: `isLoading`. -/
def finishButtonDisabled (s : TalkState) : Bool :=
  s.isLoading

/-- The persisted parental-consent record written to localStorage by
ParentalConsent.handleConsent.  `consentDate` is a timestamp in days. -/
structure ConsentRecord where
  parentName : String
  email : String
  childAge : Int
  consentDate : Int
  sessionId : String
  deriving DecidableEq, Repr

/-- The consent-related React state of the App component. -/
structure AppConsentState where
  hasConsent : Bool
  consentData : Option ConsentRecord
  showConsent : Bool
  deriving DecidableEq, Repr

/-- App's mount effect checking the stored consent record: a record is kept
iff its `consentDate` is after the instant thirty days before now; a valid
record grants access, an expired one is removed from storage and the consent
form is shown, and with no stored record the form is shown.  Returns the
resulting component state and the resulting storage content. -/
def checkStoredConsent (now : Int) (stored : Option ConsentRecord) :
    AppConsentState × Option ConsentRecord :=
  match stored with
  | some consent =>
      let thirtyDaysAgo := now - 30
      if thirtyDaysAgo < consent.consentDate then
        ({ hasConsent := true, consentData := some consent, showConsent := false },
         some consent)
      else
        ({ hasConsent := false, consentData := none, showConsent := true }, none)
  | none =>
      ({ hasConsent := false, consentData := none, showConsent := true }, none)

/-- ParentalConsent.handleConsent: with every field filled and the terms box
checked, build the consent record (consent date = now) and store it; otherwise
storage is untouched and no record is produced. -/
def handleConsent (now : Int) (parentName email : String) (childAge : Option Int)
    (agreedToTerms : Bool) (stored : Option ConsentRecord) :
    Option ConsentRecord × Option ConsentRecord :=
  if jsTruthyStr (some parentName) && jsTruthyStr (some email) &&
      jsTruthyId childAge && agreedToTerms then
    let consentData : ConsentRecord :=
      { parentName := parentName, email := email, childAge := childAge.getD 0,
        consentDate := now, sessionId := "session_" ++ toString now }
    (some consentData, some consentData)
  else
    (none, stored)

/-- A TalkScreen state holding one completed recording of one non-empty chunk. -/
def talkStateWithRecording : TalkState :=
  { initialTalkState with hasRecording := true, recordedChunks := [[1]],
                          isLoading := false }

/-- A TalkScreen state holding a completed recording whose chunk list is empty. -/
def talkStateEmptyRecording : TalkState :=
  { initialTalkState with hasRecording := true, isLoading := false }

/-- A navigation state carrying a question and valid nonzero drawing/question ids. -/
def locStateValidIds : LocationState :=
  { question := some "What is your animal doing?", questionAudio := none,
    drawingId := some 42, questionId := some 7, capturedImage := none }

/-- A consent record signed 10 days before reference time 100. -/
def consentRecent : ConsentRecord :=
  { parentName := "Alex Doe", email := "alex@example.com", childAge := 7,
    consentDate := 90, sessionId := "session_90" }

/-- A consent record signed 50 days before reference time 100. -/
def consentOld : ConsentRecord :=
  { parentName := "Alex Doe", email := "alex@example.com", childAge := 7,
    consentDate := 50, sessionId := "session_50" }

/-- C1: when the transcribe request succeeds but its body carries no
`response` text, handleFinish navigates straight to the end screen, the
response UI is never shown, and the request itself was made. -/
theorem submit_without_response_goes_to_end (s : TalkState) (loc : LocationState)
    (ra : Option String)
    (h1 : s.hasRecording = true) (h2 : s.showResponse = false)
    (h3 : jsTruthyId loc.drawingId = true) (h4 : jsTruthyId loc.questionId = true) :
    let res := handleFinish s (some loc)
      (FetchOutcome.response 200 { response := none, responseAudio := ra })
    res.1.navigatedTo = some "/end" ∧ res.1.showResponse = false ∧
    res.1.response = s.response ∧ res.2.isSome = true := by
  simp [handleFinish, locDrawingId, locQuestionId, responseOk, jsTruthyStr,
        h1, h2, h3, h4]

/-- Closed instance of C1 at a concrete state with a recording and valid ids. -/
theorem submit_without_response_goes_to_end_witness :
    let res := handleFinish talkStateWithRecording (some locStateValidIds)
      (FetchOutcome.response 200 { response := none, responseAudio := none })
    res.1.navigatedTo = some "/end" ∧ res.1.showResponse = false ∧
    res.1.response = talkStateWithRecording.response ∧ res.2.isSome = true :=
  submit_without_response_goes_to_end talkStateWithRecording locStateValidIds
    none rfl rfl (by decide) (by decide)

/-- C2 counterexample: after a failed transcribe request the recorded chunks
and the has-recording flag are not cleared, contradicting the claim that the
previously recorded answer is discarded. -/
theorem transcribe_failure_discards_recording_cex :
    ¬ ((handleFinish talkStateWithRecording (some locStateValidIds)
          FetchOutcome.networkError).1.recordedChunks = [] ∧
       (handleFinish talkStateWithRecording (some locStateValidIds)
          FetchOutcome.networkError).1.hasRecording = false) := by
  decide

/-- C2 amended: when the transcribe request fails (network error or non-ok
status), handleFinish surfaces the save error, clears loading, does not
navigate, and retains the recorded chunks and the has-recording flag
unchanged, so the same recording can be resubmitted. -/
theorem transcribe_failure_keeps_recording (s : TalkState) (loc : LocationState)
    (outcome : FetchOutcome)
    (h1 : s.hasRecording = true)
    (h3 : jsTruthyId loc.drawingId = true) (h4 : jsTruthyId loc.questionId = true)
    (hfail : outcome = FetchOutcome.networkError ∨
      ∃ status body, outcome = FetchOutcome.response status body ∧
        responseOk status = false) :
    let t := (handleFinish s (some loc) outcome).1
    t.error = some "Could not save your recording. Try again!" ∧
    t.isLoading = false ∧
    t.recordedChunks = s.recordedChunks ∧
    t.hasRecording = true ∧
    t.navigatedTo = s.navigatedTo ∧
    t.showResponse = s.showResponse := by
  rcases hfail with h | ⟨st, body, h, hok⟩
  · subst h
    simp [handleFinish, locDrawingId, locQuestionId, h1, h3, h4]
  · subst h
    simp [handleFinish, locDrawingId, locQuestionId, h1, h3, h4, hok]

/-- Closed instance of the amended C2 at a concrete failed request. -/
theorem transcribe_failure_keeps_recording_witness :
    let t := (handleFinish talkStateWithRecording (some locStateValidIds)
      FetchOutcome.networkError).1
    t.error = some "Could not save your recording. Try again!" ∧
    t.isLoading = false ∧
    t.recordedChunks = talkStateWithRecording.recordedChunks ∧
    t.hasRecording = true ∧
    t.navigatedTo = talkStateWithRecording.navigatedTo ∧
    t.showResponse = talkStateWithRecording.showResponse :=
  transcribe_failure_keeps_recording talkStateWithRecording locStateValidIds
    FetchOutcome.networkError rfl (by decide) (by decide) (Or.inl rfl)

/-- C3: a navigation state carrying a question but no question audio leads to a
state with the question text set, no error, loading cleared, the question-audio
field still null, and a playback-effect guard that does not fire. -/
theorem question_without_audio_is_text_only (q : String) (dId qId : Option Int)
    (img : Option String) (ref : Bool) (hq : q ≠ "") :
    let loc : LocationState := { question := some q, questionAudio := none,
                                 drawingId := dId, questionId := qId,
                                 capturedImage := img }
    let t := getQuestion initialTalkState (some loc)
    t.question = some q ∧ t.questionAudio = none ∧ t.isLoading = false ∧
    t.error = none ∧ questionAudioEffectFires t ref = false := by
  have hbeq : (q == "") = false := beq_eq_false_iff_ne.mpr hq
  simp [getQuestion, locQuestion, locQuestionAudio, jsTruthyStr, hbeq,
        questionAudioEffectFires, initialTalkState]

/-- Closed instance of C3 at a concrete question text. -/
theorem question_without_audio_is_text_only_witness :
    let loc : LocationState := { question := some "What is your animal doing?",
                                 questionAudio := none, drawingId := some 42,
                                 questionId := some 7, capturedImage := none }
    let t := getQuestion initialTalkState (some loc)
    t.question = some "What is your animal doing?" ∧ t.questionAudio = none ∧
    t.isLoading = false ∧ t.error = none ∧
    questionAudioEffectFires t true = false :=
  question_without_audio_is_text_only "What is your animal doing?" (some 42)
    (some 7) none true (by decide)

/-- C4: the playback effect never fires once the already-played flag is set,
and the onplay handler sets that flag while leaving the payload unchanged, so
a payload whose playback has started is never auto-played again. -/
theorem question_audio_plays_at_most_once (s : TalkState) (ref : Bool)
    (h : s.questionAudioPlayed = true) :
    questionAudioEffectFires s ref = false ∧
    (onQuestionAudioPlayStarted s).questionAudioPlayed = true ∧
    (onQuestionAudioPlayStarted s).questionAudio = s.questionAudio ∧
    questionAudioEffectFires (onQuestionAudioPlayStarted s) ref = false := by
  simp [questionAudioEffectFires, onQuestionAudioPlayStarted, h]

/-- Closed instance of C4 at a concrete state whose audio has started playing. -/
theorem question_audio_plays_at_most_once_witness :
    questionAudioEffectFires { initialTalkState with questionAudioPlayed := true }
      true = false ∧
    (onQuestionAudioPlayStarted
      { initialTalkState with questionAudioPlayed := true }).questionAudioPlayed
      = true ∧
    (onQuestionAudioPlayStarted
      { initialTalkState with questionAudioPlayed := true }).questionAudio
      = ({ initialTalkState with questionAudioPlayed := true } : TalkState).questionAudio ∧
    questionAudioEffectFires (onQuestionAudioPlayStarted
      { initialTalkState with questionAudioPlayed := true }) true = false :=
  question_audio_plays_at_most_once
    { initialTalkState with questionAudioPlayed := true } true rfl

/-- C5: while an async network operation is in flight its triggering button is
disabled: the in-flight prefix of DrawScreen.handleNext leaves the next button
disabled, and the in-flight prefix of TalkScreen.handleFinish sets the loading
flag that disables both the talk and the finish button, so a second concurrent
request cannot be started by repeated triggers. -/
theorem inflight_operation_disables_trigger (d : DrawState) (s : TalkState) :
    nextButtonDisabled (handleNextPending d) = true ∧
    nextButtonDisabled { d with isLoading := true } = true ∧
    (handleFinishPending s).isLoading = true ∧
    talkButtonDisabled (handleFinishPending s) = true ∧
    finishButtonDisabled (handleFinishPending s) = true := by
  refine ⟨?_, ?_, rfl, rfl, rfl⟩
  · by_cases h : d.capturedImage.isNone <;>
      simp [handleNextPending, nextButtonDisabled, h]
  · simp [nextButtonDisabled]

/-- C6: the stored consent record is accepted iff its consent date is within
30 days of now; with no stored record or an expired one the form is shown and
an expired record is removed from storage, while a valid record grants access
without re-prompting and storage is untouched. -/
theorem consent_valid_within_thirty_days (now : Int) (c : ConsentRecord) :
    checkStoredConsent now none =
      ({ hasConsent := false, consentData := none, showConsent := true }, none) ∧
    (now - c.consentDate < 30 →
      checkStoredConsent now (some c) =
        ({ hasConsent := true, consentData := some c, showConsent := false },
         some c)) ∧
    (30 ≤ now - c.consentDate →
      checkStoredConsent now (some c) =
        ({ hasConsent := false, consentData := none, showConsent := true },
         none)) := by
  refine ⟨rfl, ?_, ?_⟩
  · intro h
    have hc : now - 30 < c.consentDate := by omega
    simp [checkStoredConsent, hc]
  · intro h
    have hc : ¬ (now - 30 < c.consentDate) := by omega
    simp [checkStoredConsent, hc]

/-- Closed instance of C6 at time 100 with a 10-day-old record (accepted,
storage untouched) and a 50-day-old record (removed, form re-shown). -/
theorem consent_valid_within_thirty_days_witness :
    checkStoredConsent 100 (some consentRecent) =
      ({ hasConsent := true, consentData := some consentRecent,
         showConsent := false }, some consentRecent) ∧
    checkStoredConsent 100 (some consentOld) =
      ({ hasConsent := false, consentData := none, showConsent := true },
       none) :=
  ⟨(consent_valid_within_thirty_days 100 consentRecent).2.1 (by decide),
   (consent_valid_within_thirty_days 100 consentOld).2.2 (by decide)⟩

/-- C7: with a completed recording whose chunk list is empty and valid ids,
handleFinish still posts the transcribe request, whose blob is built from the
empty chunk list, rather than skipping the submission. -/
theorem empty_recording_still_submitted (s : TalkState) (loc : LocationState)
    (outcome : FetchOutcome)
    (h1 : s.hasRecording = true) (h2 : s.recordedChunks = [])
    (h3 : jsTruthyId loc.drawingId = true) (h4 : jsTruthyId loc.questionId = true) :
    (handleFinish s (some loc) outcome).2 =
      some { audio := [], drawing_id := loc.drawingId.getD 0,
             question_id := loc.questionId.getD 0 } := by
  cases outcome with
  | networkError =>
      simp [handleFinish, locDrawingId, locQuestionId, h1, h2, h3, h4]
  | response status body =>
      simp only [handleFinish, locDrawingId, locQuestionId, h1, h2, h3, h4]
      by_cases hok : responseOk status
      · by_cases hresp : jsTruthyStr body.response = true
        · simp [h1, h2, h3, h4, hok, hresp]
        · simp [h1, h2, h3, h4, hok, hresp]
      · simp [h1, h2, h3, h4, hok]

/-- Closed instance of C7 at a concrete empty-chunk recording. -/
theorem empty_recording_still_submitted_witness :
    (handleFinish talkStateEmptyRecording (some locStateValidIds)
      (FetchOutcome.response 200 { response := none, responseAudio := none })).2 =
      some { audio := [],
             drawing_id := locStateValidIds.drawingId.getD 0,
             question_id := locStateValidIds.questionId.getD 0 } :=
  empty_recording_still_submitted talkStateEmptyRecording locStateValidIds
    (FetchOutcome.response 200 { response := none, responseAudio := none })
    rfl rfl (by decide) (by decide)

/-- C8: when microphone access is denied, startRecording leaves the session in
the awaiting state (recording never starts), surfaces the permission error as
the last error, and retains no audio state from the attempt. -/
theorem mic_denied_stays_awaiting (s : TalkState) (h : s.isRecording = false) :
    let t := startRecording s MicOutcome.denied
    t.isRecording = false ∧
    t.error = some "Could not access microphone. Please check permissions." ∧
    t.recordedChunks = s.recordedChunks ∧
    t.hasRecording = s.hasRecording ∧
    t.mediaRecorder = s.mediaRecorder := by
  simp [startRecording, h]

/-- Closed instance of C8 at the initial TalkScreen state. -/
theorem mic_denied_stays_awaiting_witness :
    let t := startRecording initialTalkState MicOutcome.denied
    t.isRecording = false ∧
    t.error = some "Could not access microphone. Please check permissions." ∧
    t.recordedChunks = initialTalkState.recordedChunks ∧
    t.hasRecording = initialTalkState.hasRecording ∧
    t.mediaRecorder = initialTalkState.mediaRecorder :=
  mic_denied_stays_awaiting initialTalkState rfl

/-- C9: both the unmount cleanup and stopRecording stop an active recorder,
whose onstop handler stops every stream track (the microphone is released on
both paths), and the cleanup additionally pauses the question audio. -/
theorem teardown_releases_microphone (s : TalkState) (r : Recorder)
    (hm : s.mediaRecorder = some r) (hr : r.state = RecState.recording) :
    ((cleanup s).mediaRecorder = some (stopRecorder r) ∧
     (stopRecorder r).tracksStopped = true ∧
     (stopRecorder r).state ≠ RecState.recording ∧
     (cleanup s).audioPlaying = false) ∧
    ((stopRecording s).mediaRecorder = some (stopRecorder r) ∧
     (stopRecorder r).tracksStopped = true ∧
     (stopRecording s).isRecording = false) := by
  simp [cleanup, stopRecording, stopRecorder, hm, hr]

/-- Closed instance of C9 at a state holding a recorder in the recording
state while question audio is playing. -/
theorem teardown_releases_microphone_witness :
    let r : Recorder := { streamId := 5, state := RecState.recording,
                          tracksStopped := false }
    let s : TalkState :=
      { initialTalkState with
          mediaRecorder := some r,
          isRecording := true,
          audioPlaying := true }
    ((cleanup s).mediaRecorder = some (stopRecorder r) ∧
     (stopRecorder r).tracksStopped = true ∧
     (stopRecorder r).state ≠ RecState.recording ∧
     (cleanup s).audioPlaying = false) ∧
    ((stopRecording s).mediaRecorder = some (stopRecorder r) ∧
     (stopRecorder r).tracksStopped = true ∧
     (stopRecording s).isRecording = false) :=
  teardown_releases_microphone
    { initialTalkState with
        mediaRecorder := some { streamId := 5, state := RecState.recording,
                                tracksStopped := false },
        isRecording := true, audioPlaying := true }
    { streamId := 5, state := RecState.recording, tracksStopped := false }
    rfl rfl

/-- C10: with a recording but a missing or zero drawing/question id, no
transcribe request is made; the missing-id error is set, the recording and the
rest of the session state are unchanged, and no navigation happens. -/
theorem missing_ids_make_no_request (s : TalkState) (loc : Option LocationState)
    (outcome : FetchOutcome) (h1 : s.hasRecording = true)
    (h2 : jsTruthyId (locDrawingId loc) = false ∨
          jsTruthyId (locQuestionId loc) = false) :
    let res := handleFinish s loc outcome
    res.2 = none ∧
    res.1.error = some "Missing drawing or question ID." ∧
    res.1.recordedChunks = s.recordedChunks ∧
    res.1.hasRecording = s.hasRecording ∧
    res.1.isRecording = s.isRecording ∧
    res.1.mediaRecorder = s.mediaRecorder ∧
    res.1.showResponse = s.showResponse ∧
    res.1.response = s.response ∧
    res.1.navigatedTo = s.navigatedTo ∧
    res.1.isLoading = false := by
  have hids : (!(jsTruthyId (locDrawingId loc)) ||
               !(jsTruthyId (locQuestionId loc))) = true := by
    rcases h2 with h | h <;> simp [h]
  simp [handleFinish, h1, hids]

/-- Closed instance of C10: a completed recording finished with no navigation
state at all. -/
theorem missing_ids_make_no_request_witness :
    let res := handleFinish talkStateWithRecording none FetchOutcome.networkError
    res.2 = none ∧
    res.1.error = some "Missing drawing or question ID." ∧
    res.1.recordedChunks = talkStateWithRecording.recordedChunks ∧
    res.1.hasRecording = talkStateWithRecording.hasRecording ∧
    res.1.isRecording = talkStateWithRecording.isRecording ∧
    res.1.mediaRecorder = talkStateWithRecording.mediaRecorder ∧
    res.1.showResponse = talkStateWithRecording.showResponse ∧
    res.1.response = talkStateWithRecording.response ∧
    res.1.navigatedTo = talkStateWithRecording.navigatedTo ∧
    res.1.isLoading = false :=
  missing_ids_make_no_request talkStateWithRecording none
    FetchOutcome.networkError rfl (Or.inl rfl)
